import Mathlib

/-!
Verification of the self-healing browser-automation core: the data model
(models.py), the rule-based and LLM error classifier (agents/error_diagnosis.py),
the two-tier repair agent (agents/adaptive_repair.py), the budget governor
(utils/cost_tracker.py) and the orchestrator control loop (orchestrator.py).

External collaborators (the OpenAI client calls and the Playwright execution
backend) are modelled as oracles returning `Except String _`: an `.error`
value stands for the Python call raising an exception (or returning a
response whose parse fails, for the diagnosis oracle).  File writes
(`_save_script`, `_save_test_run`, the daily-cost ledger file) do not change
any of the in-memory objects the claims speak about, so they are omitted.
Monetary amounts (Python floats) are modelled as rationals; `datetime`
fields are dropped, except that `TestRun.completed_at` together with
`final_status` assignment is tracked by the ghost field `completions`,
which records every argument ever passed to `mark_complete`, in order.
-/

namespace SelfHeal

/-! ### String primitives with Python `str` semantics, over `List Char` -/

/-- Python `pat in s` on character lists: `pat` occurs as a contiguous
substring (the empty pattern occurs in every string). -/
def occursIn (pat : List Char) : List Char → Bool
  | [] => pat.isEmpty
  | c :: rest => pat.isPrefixOf (c :: rest) || occursIn pat rest

/-- Python `pat in s` for strings. -/
def strContains (s pat : String) : Bool := occursIn pat.data s.data

/-- Worker for Python `s.replace(pat, rep)`: scan left to right; `skip`
counts characters of an already-replaced occurrence still to be consumed.
Structural recursion on the string keeps the function kernel-reducible. -/
def replaceGo (pat rep : List Char) : Nat → List Char → List Char
  | _, [] => []
  | 0, c :: rest =>
    if pat ≠ [] ∧ pat.isPrefixOf (c :: rest) then
      rep ++ replaceGo pat rep (pat.length - 1) rest
    else
      c :: replaceGo pat rep 0 rest
  | skip + 1, _ :: rest => replaceGo pat rep skip rest

/-- Python `s.replace(pat, rep)` on character lists: replace every
occurrence of `pat`, scanning left to right, non-overlapping.  The
`pat ≠ []` guard keeps the empty pattern from looping (the sources never
replace an empty pattern). -/
def replaceList (pat rep : List Char) (s : List Char) : List Char :=
  replaceGo pat rep 0 s

/-- Python `s.replace(pat, rep)` for strings. -/
def strReplace (s pat rep : String) : String :=
  ⟨replaceList pat.data rep.data s.data⟩

/-- Python `s.lower()` (ASCII, which covers every keyword the classifier
tests). -/
def strLower (s : String) : String := ⟨s.data.map Char.toLower⟩

/-- Python `s.upper()` (ASCII). -/
def strUpper (s : String) : String := ⟨s.data.map Char.toUpper⟩

/-! ### Data model (models.py) -/

/-- TaskStatus enum from models.py. -/
inductive TaskStatus
  | pending
  | generating
  | executing
  | diagnosing
  | repairing
  | success
  | failed
deriving DecidableEq, Repr

/-- ErrorType enum from models.py. -/
inductive ErrorType
  | selector_not_found
  | timeout
  | network_error
  | javascript_error
  | crash
  | unexpected_state
  | unknown
deriving DecidableEq, Repr

/-- The `.value` string of an ErrorType member. -/
def ErrorType.value : ErrorType → String
  | .selector_not_found => "selector_not_found"
  | .timeout => "timeout"
  | .network_error => "network_error"
  | .javascript_error => "javascript_error"
  | .crash => "crash"
  | .unexpected_state => "unexpected_state"
  | .unknown => "unknown"

/-- AutomationTask from models.py (`created_at` and the metadata map are
irrelevant to every claim and dropped). -/
structure AutomationTask where
  id : String
  description : String
  url : Option String := none
  status : TaskStatus := .pending
deriving DecidableEq, Repr

/-- GeneratedScript from models.py (`generated_at` dropped, cost as ℚ). -/
structure GeneratedScript where
  task_id : String
  code : String
  language : String := "python"
  model_used : String
  prompt_tokens : Nat := 0
  completion_tokens : Nat := 0
  cost : ℚ := 0
  version : Nat := 1
deriving DecidableEq, Repr

/-- One entry of `ExecutionResult.network_logs`: a dict of which the
classifier only reads `log.get("status", 200)`. -/
structure NetworkLogEntry where
  status : Option Nat := none
deriving DecidableEq, Repr

/-- ExecutionResult from models.py (`executed_at` dropped, duration as ℚ). -/
structure ExecutionResult where
  task_id : String
  script_version : Nat
  success : Bool
  error_message : Option String := none
  screenshots : List String := []
  video_path : Option String := none
  console_logs : List String := []
  network_logs : List NetworkLogEntry := []
  execution_time : ℚ := 0
deriving DecidableEq, Repr

/-- The `error_context` dict of an ErrorDiagnosis, with the keys either
tier writes (the rule tier fills the first five, the LLM tier the last
two). -/
structure ErrorContext where
  error_message : Option String := none
  execution_time : ℚ := 0
  screenshots_available : Nat := 0
  console_errors : List String := []
  failed_requests : List NetworkLogEntry := []
  llm_cost : Option ℚ := none
  original_error : Option String := none
deriving DecidableEq, Repr

/-- ErrorDiagnosis from models.py (`diagnosed_at` dropped, confidence as ℚ). -/
structure ErrorDiagnosis where
  task_id : String
  error_type : ErrorType
  error_message : String
  error_context : ErrorContext := {}
  suggested_fixes : List String := []
  confidence : ℚ := 0
deriving DecidableEq, Repr

/-- RepairAttempt from models.py. -/
structure RepairAttempt where
  task_id : String
  original_version : Nat
  repaired_script : GeneratedScript
  repair_strategy : String
  diagnosis_used : ErrorDiagnosis
  success : Bool := false
  attempt_number : Nat := 1
deriving DecidableEq, Repr

/-- TestRun from models.py.  `completions` is a ghost field recording, in
order, every status ever passed to `mark_complete`; the Python pair
(`final_status` assignment, `completed_at` assignment) corresponds to one
appended entry. -/
structure TestRun where
  task : AutomationTask
  scripts : List GeneratedScript := []
  executions : List ExecutionResult := []
  diagnoses : List ErrorDiagnosis := []
  repairs : List RepairAttempt := []
  final_status : TaskStatus := .pending
  total_cost : ℚ := 0
  completions : List TaskStatus := []
deriving DecidableEq, Repr

/-- TestRun.add_cost from models.py. -/
def TestRun.add_cost (tr : TestRun) (cost : ℚ) : TestRun :=
  { tr with total_cost := tr.total_cost + cost }

/-- TestRun.mark_complete from models.py: sets `final_status` (and
`completed_at`, tracked by the ghost append). -/
def TestRun.mark_complete (tr : TestRun) (status : TaskStatus) : TestRun :=
  { tr with final_status := status, completions := tr.completions ++ [status] }

/-! ### Error classifier (agents/error_diagnosis.py) -/

/-- Keyword group for selector errors (`_rule_based_diagnosis`). -/
def selectorKeywords : List String :=
  ["element not found", "no element", "selector", "locator",
   "could not find", "elementhandle"]

/-- Keyword group for timeout errors. -/
def timeoutKeywords : List String := ["timeout", "timed out", "exceeded"]

/-- Keyword group for network errors. -/
def networkKeywords : List String :=
  ["network", "connection", "dns", "refused", "unreachable", "net::"]

/-- Keyword group for JavaScript errors. -/
def javascriptKeywords : List String :=
  ["javascript", "uncaught", "reference error", "type error"]

/-- Keyword group for crash errors. -/
def crashKeywords : List String :=
  ["crash", "terminated", "killed", "segmentation fault"]

/-- Python `any(keyword in msg for keyword in kws)`. -/
def anyKeyword (msg : String) (kws : List String) : Bool :=
  kws.any (fun k => strContains msg k)

/-- Suggested fixes for selector errors, verbatim from the source. -/
def selectorFixes : List String :=
  ["Try alternative selectors (CSS, XPath, text content)",
   "Add explicit wait: await page.wait_for_selector()",
   "Check if element is in iframe or shadow DOM",
   "Verify element is visible and not hidden by CSS"]

/-- Suggested fixes for timeout errors, verbatim from the source. -/
def timeoutFixes : List String :=
  ["Increase timeout: timeout=60000",
   "Wait for network idle: wait_until='networkidle'",
   "Add retry logic with exponential backoff",
   "Check if page is loading too slowly"]

/-- Suggested fixes for network errors, verbatim from the source. -/
def networkFixes : List String :=
  ["Verify URL is correct and accessible",
   "Check internet connection",
   "Add retry logic for failed requests",
   "Handle offline scenarios gracefully"]

/-- Suggested fixes for JavaScript errors, verbatim from the source. -/
def javascriptFixes : List String :=
  ["Check browser console for detailed errors",
   "Wait for page JavaScript to load completely",
   "Try different browser or version",
   "Disable problematic scripts if possible"]

/-- Suggested fixes for crash errors, verbatim from the source. -/
def crashFixes : List String :=
  ["Increase memory limits",
   "Try headless mode",
   "Update Playwright/browser version",
   "Check system resources"]

/-- The `error_context` dict assembled by `_rule_based_diagnosis`: error
text, duration, screenshot count, up to 5 console lines whose lowercase
text contains "[error]", up to 5 network events with status >= 400. -/
def buildRuleContext (result : ExecutionResult) : ErrorContext :=
  { error_message := result.error_message
    execution_time := result.execution_time
    screenshots_available := result.screenshots.length
    console_errors :=
      (result.console_logs.filter (fun log => strContains (strLower log) "[error]")).take 5
    failed_requests :=
      (result.network_logs.filter (fun log => 400 ≤ log.status.getD 200)).take 5 }

/-- `ErrorDiagnosisAgent._rule_based_diagnosis`: lower-case the error text
and test the keyword groups in source order (selector, timeout, network,
javascript, crash); the first matching group fixes kind, root cause, fixes
and confidence, and no match yields `unknown` with confidence 0.5. -/
def ruleBasedDiagnosis (result : ExecutionResult) : ErrorDiagnosis :=
  let error_msg := result.error_message.getD ""
  let m := strLower error_msg
  let fields : ErrorType × String × List String × ℚ :=
    if anyKeyword m selectorKeywords then
      (.selector_not_found, "Element selector could not locate the target element",
       selectorFixes, 0.8)
    else if anyKeyword m timeoutKeywords then
      (.timeout, "Operation exceeded time limit", timeoutFixes, 0.85)
    else if anyKeyword m networkKeywords then
      (.network_error, "Network connectivity or DNS resolution failure",
       networkFixes, 0.9)
    else if anyKeyword m javascriptKeywords then
      (.javascript_error, "JavaScript runtime error on the page",
       javascriptFixes, 0.75)
    else if anyKeyword m crashKeywords then
      (.crash, "Browser or process crashed unexpectedly", crashFixes, 0.7)
    else
      (.unknown, error_msg, [], 0.5)
  { task_id := result.task_id
    error_type := fields.1
    error_message := fields.2.1
    error_context := buildRuleContext result
    suggested_fixes := fields.2.2.1
    confidence := fields.2.2.2 }

/-- The structured fields `_llm_diagnosis` reads out of the model's JSON
response (each `.get` with a default becomes an `Option`). -/
structure DiagJson where
  error_type : Option String := none
  root_cause : Option String := none
  suggested_fixes : Option (List String) := none
  confidence : Option ℚ := none
deriving DecidableEq, Repr

/-- A successful round trip of the diagnosis model call: the parsed JSON
plus the cost the tracker computed for the request. -/
structure LlmDiagResponse where
  json : DiagJson
  cost : ℚ := 0
deriving DecidableEq, Repr

/-- The diagnosis collaborator: the chat-completion call, the JSON
extraction and the usage bookkeeping of `_llm_diagnosis`; `.error` stands
for the call raising or the response being malformed (no parseable JSON). -/
def DiagOracle : Type := ExecutionResult → Except String LlmDiagResponse

/-- Python `ErrorType[s.upper()]` with `KeyError` mapped to `unknown`. -/
def parseErrorType (s : String) : ErrorType :=
  let u := strUpper s
  if u = "SELECTOR_NOT_FOUND" then .selector_not_found
  else if u = "TIMEOUT" then .timeout
  else if u = "NETWORK_ERROR" then .network_error
  else if u = "JAVASCRIPT_ERROR" then .javascript_error
  else if u = "CRASH" then .crash
  else if u = "UNEXPECTED_STATE" then .unexpected_state
  else .unknown

/-- `ErrorDiagnosisAgent._llm_diagnosis`: on any failure of the model call
or of the response parse, fall back to the rule-based result; otherwise
build the diagnosis from the parsed JSON with the source's defaults. -/
def llmDiagnosis (oracle : DiagOracle) (result : ExecutionResult) : ErrorDiagnosis :=
  match oracle result with
  | .error _ => ruleBasedDiagnosis result
  | .ok resp =>
    { task_id := result.task_id
      error_type := parseErrorType (resp.json.error_type.getD "unknown")
      error_message := resp.json.root_cause.getD (result.error_message.getD "")
      error_context := { llm_cost := some resp.cost, original_error := result.error_message }
      suggested_fixes := resp.json.suggested_fixes.getD []
      confidence := resp.json.confidence.getD 0.5 }

/-- `ErrorDiagnosisAgent.diagnose_error`: reject successful outcomes
(`ValueError`), run the rule tier, and invoke the model tier only when the
rule tier's confidence is below 0.7. -/
def diagnoseError (oracle : DiagOracle) (result : ExecutionResult) :
    Except String ErrorDiagnosis :=
  if result.success then
    .error "Cannot diagnose a successful execution"
  else
    let rule_based := ruleBasedDiagnosis result
    if rule_based.confidence < 0.7 then
      .ok (llmDiagnosis oracle result)
    else
      .ok rule_based

/-! ### Cost tracker (utils/cost_tracker.py) and config (config.py) -/

/-- Per-model input/output price per 1M tokens. -/
structure ModelPricing where
  input : ℚ
  output : ℚ
deriving DecidableEq, Repr

/-- Config.MODEL_PRICING. -/
def modelPricing : List (String × ModelPricing) :=
  [("anthropic/claude-3.5-haiku", ⟨0.25, 1.25⟩),
   ("openai/gpt-4o-mini", ⟨0.15, 0.60⟩),
   ("anthropic/claude-3.5-sonnet", ⟨3.00, 15.00⟩),
   ("openai/gpt-4", ⟨30.00, 60.00⟩)]

/-- Config.DEFAULT_MODEL's default value. -/
def defaultModel : String := "anthropic/claude-3.5-haiku"

/-- Config.FALLBACK_MODEL's default value. -/
def fallbackModel : String := "openai/gpt-4o-mini"

/-- Pricing lookup of `CostTracker.calculate_cost`: unknown models fall
back to the fallback model's pricing. -/
def lookupPricing (model : String) : ModelPricing :=
  match (modelPricing.filter (fun p => p.1 = model)).head? with
  | some p => p.2
  | none =>
    match (modelPricing.filter (fun p => p.1 = fallbackModel)).head? with
    | some p => p.2
    | none => ⟨0, 0⟩

/-- `CostTracker.calculate_cost`: linear in tokens. -/
def calculateCost (model : String) (input_tokens output_tokens : Nat) : ℚ :=
  let pricing := lookupPricing model
  (input_tokens : ℚ) / 1000000 * pricing.input
    + (output_tokens : ℚ) / 1000000 * pricing.output

/-- `CostTracker.check_budget`, as a function of the recorded daily total
for today, the estimate, and the two configured ceilings
(Config.DAILY_BUDGET, Config.MAX_COST_PER_RUN).  The reason strings keep
the source's wording; the `:.4f` float formatting is rendered by
`toString` on ℚ. -/
def checkBudget (dailyBefore estimated_cost dailyBudget maxCostPerRun : ℚ) :
    Bool × String :=
  let daily_total := dailyBefore + estimated_cost
  if dailyBudget < daily_total then
    (false, "Would exceed daily budget: $" ++ toString daily_total
      ++ " / $" ++ toString dailyBudget)
  else if maxCostPerRun < estimated_cost then
    (false, "Estimated cost $" ++ toString estimated_cost
      ++ " exceeds max per run $" ++ toString maxCostPerRun)
  else
    (true, "Within budget")

/-! ### Repair agent (agents/adaptive_repair.py) -/

/-- The code/modified/strategies triple `_try_quick_fixes` computes before
deciding whether it produced a repair.  Mirrors the source exactly: for a
timeout diagnosis the two `replace` chains fire whenever the marker text
(`timeout=`, `wait_until=`) is absent — whether or not the script contains
`await page.goto(` at all — and for a selector diagnosis the code text is
left unchanged. -/
def quickFixCompute (script : GeneratedScript) (diagnosis : ErrorDiagnosis) :
    String × Bool × List String :=
  if diagnosis.error_type = ErrorType.timeout then
    let step1 : String × Bool × List String :=
      if !strContains script.code "timeout=" then
        (strReplace (strReplace script.code "await page.goto(" "await page.goto(")
           "await page.goto(" "await page.goto(timeout=60000, ",
         true, ["Increased navigation timeout to 60s"])
      else
        (script.code, false, [])
    if !strContains step1.1 "wait_until=" then
      (strReplace step1.1 "await page.goto(" "await page.goto(wait_until='networkidle', ",
       true, step1.2.2 ++ ["Added network idle wait"])
    else
      step1
  else if diagnosis.error_type = ErrorType.selector_not_found then
    if strContains script.code "await page.click(" &&
        !strContains script.code "wait_for_selector" then
      (script.code, true, ["Would add explicit waits (LLM recommended)"])
    else
      (script.code, false, [])
  else
    (script.code, false, [])

/-- `AdaptiveRepairAgent._try_quick_fixes`: `none` when no rule modified
anything, otherwise a free (cost 0) new script version `v+1` marked
`quick_fix`, wrapped in a RepairAttempt whose `attempt_number` is the
hard-coded 1. -/
def quickFixes (script : GeneratedScript) (diagnosis : ErrorDiagnosis) :
    Option RepairAttempt :=
  if (quickFixCompute script diagnosis).2.1 = false then
    none
  else
    some
      { task_id := script.task_id
        original_version := script.version
        repaired_script :=
          { task_id := script.task_id
            code := (quickFixCompute script diagnosis).1
            model_used := "quick_fix"
            version := script.version + 1
            cost := 0 }
        repair_strategy := String.intercalate "; " (quickFixCompute script diagnosis).2.2
        diagnosis_used := diagnosis
        attempt_number := 1 }

/-- A successful round trip of the repair model call: the repaired source
extracted from the response (the fenced-block extraction of
`_extract_code` is absorbed into the collaborator) plus usage and the cost
the tracker computed. -/
structure LlmRepairResponse where
  code : String
  prompt_tokens : Nat := 0
  completion_tokens : Nat := 0
  cost : ℚ := 0
deriving DecidableEq, Repr

/-- The repair collaborator of `_llm_repair`, keyed by the script, the
diagnosis and the attempt number of the call; `.error` stands for the
chat-completion call raising. -/
def RepairOracle : Type :=
  GeneratedScript → ErrorDiagnosis → Nat → Except String LlmRepairResponse

/-- `AdaptiveRepairAgent._llm_repair`: a failure of the model call is
re-raised; success yields a new script version `v+1` and a RepairAttempt
recording the actual attempt number. -/
def llmRepair (oracle : RepairOracle) (script : GeneratedScript)
    (diagnosis : ErrorDiagnosis) (attempt_number : Nat) :
    Except String RepairAttempt :=
  match oracle script diagnosis attempt_number with
  | .error e => .error e
  | .ok resp =>
    .ok
      { task_id := script.task_id
        original_version := script.version
        repaired_script :=
          { task_id := script.task_id
            code := resp.code
            model_used := defaultModel
            version := script.version + 1
            prompt_tokens := resp.prompt_tokens
            completion_tokens := resp.completion_tokens
            cost := resp.cost }
        repair_strategy := "LLM repair for " ++ diagnosis.error_type.value
        diagnosis_used := diagnosis
        attempt_number := attempt_number }

/-- `AdaptiveRepairAgent.repair_script`: raise (`ValueError`) past the
attempt budget, try the deterministic tier, fall through to the model
tier. -/
def repairScript (oracle : RepairOracle) (maxRepairAttempts : Nat)
    (original_script : GeneratedScript) (diagnosis : ErrorDiagnosis)
    (attempt_number : Nat) : Except String RepairAttempt :=
  if maxRepairAttempts < attempt_number then
    .error ("Exceeded maximum repair attempts (" ++ toString maxRepairAttempts ++ ")")
  else
    match quickFixes original_script diagnosis with
    | some quick_fix_result => .ok quick_fix_result
    | none => llmRepair oracle original_script diagnosis attempt_number

/-! ### Orchestrator (orchestrator.py) -/

/-- What `ScriptGeneratorAgent.generate_script` draws from its model call:
source text (after `_extract_code`), token usage and the tracked cost.  The
agent itself then builds the `GeneratedScript`, so `version` is always the
model default 1. -/
structure GenResponse where
  code : String
  prompt_tokens : Nat := 0
  completion_tokens : Nat := 0
  cost : ℚ := 0
deriving DecidableEq, Repr

/-- The collaborators of one `run_automation` call.  `generate` is the
single synthesis call for version 1 (`.error` = the call, the budget check
or the parse raising); `execute` is the execution backend, keyed by the
attempt number so each call may behave differently (`.error` = the
execution failing to start); the other two are the model calls of the
diagnosis and repair agents. -/
structure Collaborators where
  generate : Except String GenResponse
  execute : Nat → GeneratedScript → Option Bool → Except String ExecutionResult
  diagOracle : DiagOracle
  repairOracle : RepairOracle

/-- `ScriptGeneratorAgent.generate_script` for the initial version: builds
the version-1 `GeneratedScript` from the synthesis response. -/
def generateScript (oracle : Except String GenResponse) (task : AutomationTask) :
    Except String GeneratedScript :=
  match oracle with
  | .error e => .error e
  | .ok resp =>
    .ok
      { task_id := task.id
        code := resp.code
        model_used := defaultModel
        prompt_tokens := resp.prompt_tokens
        completion_tokens := resp.completion_tokens
        cost := resp.cost }

/-- The failed ExecutionResult `run_automation` builds when the execution
backend raises ("Execution failed to start"). -/
def execFailResult (task_id : String) (script_version : Nat) (e : String) :
    ExecutionResult :=
  { task_id := task_id
    script_version := script_version
    success := false
    error_message := some ("Execution failed to start: " ++ e)
    console_logs := [e] }

/-- The `while attempt < max_attempts` loop of `run_automation`.
`maxRepair` is Config.MAX_REPAIR_ATTEMPTS, so the loop's `max_attempts` is
`maxRepair + 1`; `remaining` counts the loop iterations the `while`
condition still admits (`max_attempts - attempt`), and `attempt` is the
counter before the iteration's increment.  Each iteration executes the
current version (a backend exception becomes a failed result), stops with
`success` on a successful outcome, seals `failed` when auto-heal is off or
the attempt budget is spent, and otherwise diagnoses and repairs; an
exception out of the diagnosis call reaches the outer `try` of
`run_automation`, which seals `failed`, and a repair exception is caught
in the loop, sealing `failed`. -/
def runLoop (c : Collaborators) (headless : Option Bool) (autoHeal : Bool)
    (maxRepair : Nat) : Nat → Nat → GeneratedScript → TestRun → TestRun
  | 0, _, _, tr => tr
  | remaining + 1, attempt, current, tr =>
    let attempt1 := attempt + 1
    let result :=
      match c.execute attempt1 current headless with
      | .ok r => r
      | .error e => execFailResult tr.task.id current.version e
    let tr1 := { tr with executions := tr.executions ++ [result] }
    if result.success then
      tr1.mark_complete .success
    else if autoHeal = false ∨ maxRepair + 1 ≤ attempt1 then
      tr1.mark_complete .failed
    else
      match diagnoseError c.diagOracle result with
      | .error _ => tr1.mark_complete .failed
      | .ok diagnosis =>
        let tr2 := { tr1 with diagnoses := tr1.diagnoses ++ [diagnosis] }
        match repairScript c.repairOracle maxRepair current diagnosis attempt1 with
        | .error _ => tr2.mark_complete .failed
        | .ok repair =>
          let tr3 := { tr2 with repairs := tr2.repairs ++ [repair] }
          let tr4 := tr3.add_cost repair.repaired_script.cost
          let tr5 := { tr4 with scripts := tr4.scripts ++ [repair.repaired_script] }
          runLoop c headless autoHeal maxRepair remaining attempt1
            repair.repaired_script tr5

/-- `AutomationOrchestrator.run_automation`: create the task and the
TestRun shell, synthesize version 1 (failure seals `failed` via the outer
`try`), then run the attempt loop starting at `attempt = 0` with
`max_attempts = maxRepair + 1` iterations available. -/
def runAutomation (c : Collaborators) (taskId description : String)
    (url : Option String) (headless : Option Bool) (autoHeal : Bool)
    (maxRepair : Nat) : TestRun :=
  let task : AutomationTask := { id := taskId, description := description, url := url }
  let tr : TestRun := { task := task }
  match generateScript c.generate task with
  | .error _ => tr.mark_complete .failed
  | .ok script =>
    let tr1 := { tr with scripts := tr.scripts ++ [script] }
    let tr2 := tr1.add_cost script.cost
    runLoop c headless autoHeal maxRepair (maxRepair + 1) 0 script tr2

/-! ### Specification-side definitions used to state the claims -/

/-- The classifier's ordered keyword groups with their error kinds and
confidences, in the precedence the spec states: selector terms, timeout
terms, network terms, script-runtime terms, crash terms. -/
def keywordTable : List (List String × ErrorType × ℚ) :=
  [(selectorKeywords, .selector_not_found, 0.8),
   (timeoutKeywords, .timeout, 0.85),
   (networkKeywords, .network_error, 0.9),
   (javascriptKeywords, .javascript_error, 0.75),
   (crashKeywords, .crash, 0.7)]

/-- First-match-wins over an ordered group table; no match yields
`unknown` with confidence 0.5. -/
def firstMatch (m : String) : List (List String × ErrorType × ℚ) → ErrorType × ℚ
  | [] => (.unknown, 0.5)
  | g :: rest => if anyKeyword m g.1 then (g.2.1, g.2.2) else firstMatch m rest

/-- An execution backend on which every execution of every script version
reports failure with a network error: the outcome is always delivered
(`.ok`), never succeeds, and its error text matches the network keyword
group but neither of the two groups tested before it. -/
def alwaysNetworkFail (c : Collaborators) (headless : Option Bool) : Prop :=
  ∀ n s, ∃ r, c.execute n s headless = .ok r ∧ r.success = false ∧
    anyKeyword (strLower (r.error_message.getD "")) selectorKeywords = false ∧
    anyKeyword (strLower (r.error_message.getD "")) timeoutKeywords = false ∧
    anyKeyword (strLower (r.error_message.getD "")) networkKeywords = true

/-- A repair model call that always returns a response. -/
def repairNeverRaises (c : Collaborators) : Prop :=
  ∀ s d n, ∃ resp, c.repairOracle s d n = .ok resp

/-- Concrete collaborators on which every execution fails with
"net::ERR_CONNECTION_REFUSED": generation succeeds, the diagnosis oracle
is never reached (the rule tier's 0.9 confidence decides), and the repair
oracle echoes the failing script back. -/
def netFailCollabs : Collaborators :=
  { generate := .ok { code := "await page.goto(url)" }
    execute := fun _ s _ => .ok
      { task_id := "t1", script_version := s.version, success := false,
        error_message := some "net::ERR_CONNECTION_REFUSED" }
    diagOracle := fun _ => .error "unused"
    repairOracle := fun s _ _ => .ok { code := s.code } }

/-! ### Recursion equations of `replaceList` -/

/-- The worker with a pending skip equals the replacement of the dropped
string. -/
theorem replaceGo_eq_drop (pat rep : List Char) (s : List Char) :
    ∀ k, replaceGo pat rep k s = replaceList pat rep (s.drop k) := by
  induction s with
  | nil => intro k; cases k <;> rfl
  | cons c rest ih =>
    intro k
    cases k with
    | zero => rfl
    | succ j =>
      show replaceGo pat rep j rest = _
      rw [ih j]
      rfl

/-- Replacement at a match: emit `rep` and continue past the pattern. -/
theorem replaceList_cons_match (pat rep : List Char) (c : Char) (rest : List Char)
    (hp : pat ≠ []) (hm : pat.isPrefixOf (c :: rest) = true) :
    replaceList pat rep (c :: rest) =
      rep ++ replaceList pat rep ((c :: rest).drop pat.length) := by
  show replaceGo pat rep 0 (c :: rest) = _
  rw [replaceGo, if_pos ⟨hp, hm⟩, replaceGo_eq_drop]
  obtain ⟨m, hmlen⟩ : ∃ m, pat.length = m + 1 :=
    ⟨pat.length - 1, by cases pat with | nil => exact absurd rfl hp | cons x xs => simp⟩
  rw [hmlen]
  rfl

/-- Replacement at a non-match: copy the head character. -/
theorem replaceList_cons_nomatch (pat rep : List Char) (c : Char) (rest : List Char)
    (hm : ¬ (pat ≠ [] ∧ pat.isPrefixOf (c :: rest) = true)) :
    replaceList pat rep (c :: rest) = c :: replaceList pat rep rest := by
  show replaceGo pat rep 0 (c :: rest) = _
  rw [replaceGo, if_neg hm]
  rfl

/-- Replacement of the empty string. -/
theorem replaceList_nil (pat rep : List Char) : replaceList pat rep [] = [] := rfl

/-! ### Basic facts about the string primitives -/

/-- The empty pattern occurs everywhere (as for Python `"" in s`). -/
theorem occursIn_nil (s : List Char) : occursIn [] s = true := by
  cases s <;> simp [occursIn, List.isPrefixOf]

/-- Substring occurrence is exactly decomposability around the pattern. -/
theorem occursIn_iff (p s : List Char) :
    occursIn p s = true ↔ ∃ a b, s = a ++ p ++ b := by
  constructor
  · intro h
    induction s with
    | nil =>
      refine ⟨[], [], ?_⟩
      simp [occursIn, List.isEmpty_iff] at h
      simp [h]
    | cons c rest ih =>
      simp only [occursIn, Bool.or_eq_true] at h
      rcases h with h | h
      · obtain ⟨t, ht⟩ := List.isPrefixOf_iff_prefix.mp h
        exact ⟨[], t, by simp [← ht]⟩
      · obtain ⟨a, b, hab⟩ := ih h
        exact ⟨c :: a, b, by simp [hab]⟩
  · rintro ⟨a, b, rfl⟩
    induction a with
    | nil =>
      cases hp : p with
      | nil => simp [occursIn_nil]
      | cons q qt =>
        subst hp
        simp only [List.nil_append, List.cons_append, occursIn, Bool.or_eq_true]
        exact Or.inl (List.isPrefixOf_iff_prefix.mpr ⟨b, rfl⟩)
    | cons c a' ih =>
      simp only [List.cons_append, occursIn, Bool.or_eq_true]
      exact Or.inr ih

/-- An occurrence in a suffix is an occurrence. -/
theorem occursIn_append_right (p a b : List Char) (h : occursIn p b = true) :
    occursIn p (a ++ b) = true := by
  obtain ⟨x, y, rfl⟩ := (occursIn_iff p b).mp h
  exact (occursIn_iff p _).mpr ⟨a ++ x, y, by simp⟩

/-- An occurrence in a prefix is an occurrence. -/
theorem occursIn_append_left (p a b : List Char) (h : occursIn p a = true) :
    occursIn p (a ++ b) = true := by
  obtain ⟨x, y, rfl⟩ := (occursIn_iff p a).mp h
  exact (occursIn_iff p _).mpr ⟨x, y ++ b, by simp⟩

/-- A prefix occurrence is an occurrence. -/
theorem occursIn_of_prefix (p s : List Char) (h : p <+: s) : occursIn p s = true := by
  obtain ⟨t, rfl⟩ := h
  exact (occursIn_iff p _).mpr ⟨[], t, by simp⟩

/-! ### Claim C7: the budget governor -/

/-- Claim C7.  With a recorded daily total of 4.90, a daily ceiling of
5.00 and a per-run ceiling of 0.50, `check_budget 0.20` is rejected with a
reason naming the daily ceiling and `check_budget 0.05` is allowed; in
general, `check_budget` rejects exactly when the estimate pushes the daily
total strictly over the daily ceiling or the estimate alone strictly
exceeds the per-run ceiling. -/
theorem claim_C7_check_budget :
    (∀ dailyBefore est dailyBudget maxPerRun : ℚ,
      (checkBudget dailyBefore est dailyBudget maxPerRun).1 = false ↔
        (dailyBudget < dailyBefore + est ∨ maxPerRun < est)) ∧
    (checkBudget 4.90 0.20 5.00 0.50).1 = false ∧
    strContains (checkBudget 4.90 0.20 5.00 0.50).2 "daily budget" = true ∧
    (checkBudget 4.90 0.05 5.00 0.50).1 = true := by
  have hover : (5.00 : ℚ) < 4.90 + 0.20 := by norm_num
  have hunder : ¬ ((5.00 : ℚ) < 4.90 + 0.05) := by norm_num
  have hrun : ¬ ((0.50 : ℚ) < 0.05) := by norm_num
  refine ⟨?_, ?_, ?_, ?_⟩
  · intro dailyBefore est dailyBudget maxPerRun
    unfold checkBudget
    by_cases h1 : dailyBudget < dailyBefore + est
    · simp [h1]
    · by_cases h2 : maxPerRun < est <;> simp [h1, h2]
  · simp [checkBudget, hover]
  · simp only [checkBudget, if_pos hover, strContains, String.data_append]
    exact occursIn_append_left _ _ _ (by decide)
  · simp [checkBudget, hunder, hrun]

/-! ### Claim C9: LLM-diagnosis failures fall back to the rule tier -/

/-- Claim C9.  When the model-assisted diagnosis call raises or its
response cannot be parsed (the oracle returns `.error`), `_llm_diagnosis`
returns the rule-tier diagnosis, so `diagnose_error` on a failed outcome
always terminates with a usable diagnosis — the rule-tier one. -/
theorem claim_C9_llm_fallback (result : ExecutionResult) (oracle : DiagOracle)
    (e : String) (hfail : result.success = false)
    (herr : oracle result = .error e) :
    llmDiagnosis oracle result = ruleBasedDiagnosis result ∧
    diagnoseError oracle result = .ok (ruleBasedDiagnosis result) := by
  have h1 : llmDiagnosis oracle result = ruleBasedDiagnosis result := by
    unfold llmDiagnosis
    rw [herr]
  refine ⟨h1, ?_⟩
  unfold diagnoseError
  simp only [hfail, Bool.false_eq_true, if_false]
  by_cases h : (ruleBasedDiagnosis result).confidence < 0.7
  · simp [h, h1]
  · simp [h]

/-- Witness for C9 at a concrete failed outcome whose rule confidence is
0.5, so the model tier genuinely is invoked and genuinely falls back. -/
theorem claim_C9_witness :
    llmDiagnosis (fun _ => .error "boom")
        { task_id := "t9", script_version := 1, success := false,
          error_message := some "mystery" } =
      ruleBasedDiagnosis
        { task_id := "t9", script_version := 1, success := false,
          error_message := some "mystery" } ∧
    diagnoseError (fun _ => .error "boom")
        { task_id := "t9", script_version := 1, success := false,
          error_message := some "mystery" } =
      .ok (ruleBasedDiagnosis
        { task_id := "t9", script_version := 1, success := false,
          error_message := some "mystery" }) :=
  claim_C9_llm_fallback _ _ "boom" rfl rfl

/-! ### Facts about the repair tiers -/

/-- Every repair the deterministic tier produces is the literal record the
source constructs: version `v+1`, model `quick_fix`, cost 0, attempt
number hard-coded to 1. -/
theorem quickFixes_some_fields (s : GeneratedScript) (d : ErrorDiagnosis)
    (ra : RepairAttempt) (h : quickFixes s d = some ra) :
    ra.repaired_script.version = s.version + 1 ∧ ra.attempt_number = 1 ∧
    ra.repaired_script.code = (quickFixCompute s d).1 := by
  unfold quickFixes at h
  split at h
  · cases h
  · injection h with h
    subst h
    exact ⟨rfl, rfl, rfl⟩

/-- Every repair the model tier produces records version `v+1` and the
actual attempt number of the call. -/
theorem llmRepair_ok_fields (oracle : RepairOracle) (s : GeneratedScript)
    (d : ErrorDiagnosis) (a : Nat) (ra : RepairAttempt)
    (h : llmRepair oracle s d a = .ok ra) :
    ra.repaired_script.version = s.version + 1 ∧ ra.attempt_number = a := by
  unfold llmRepair at h
  cases ho : oracle s d a with
  | error e => rw [ho] at h; cases h
  | ok resp =>
    rw [ho] at h
    injection h with h
    subst h
    exact ⟨rfl, rfl⟩

/-- Every successful repair, through either tier, produces a script whose
version is the original's plus one. -/
theorem repairScript_ok_version (oracle : RepairOracle) (M : Nat)
    (s : GeneratedScript) (d : ErrorDiagnosis) (a : Nat) (ra : RepairAttempt)
    (h : repairScript oracle M s d a = .ok ra) :
    ra.repaired_script.version = s.version + 1 := by
  unfold repairScript at h
  by_cases hM : M < a
  · rw [if_pos hM] at h; cases h
  · rw [if_neg hM] at h
    cases hq : quickFixes s d with
    | some ra' =>
      rw [hq] at h
      injection h with h
      subst h
      exact (quickFixes_some_fields s d ra' hq).1
    | none =>
      rw [hq] at h
      exact (llmRepair_ok_fields oracle s d a ra h).1

/-- The deterministic tier declines every diagnosis whose kind is neither
timeout nor selector-not-found. -/
theorem quickFixes_none_of_other (s : GeneratedScript) (d : ErrorDiagnosis)
    (h1 : d.error_type ≠ .timeout) (h2 : d.error_type ≠ .selector_not_found) :
    quickFixes s d = none := by
  unfold quickFixes quickFixCompute
  simp [h1, h2]

/-! ### Claim C10: quick-fix repairs hard-code attempt_number = 1 -/

/-- Claim C10.  Within the attempt budget, a repair produced by the
deterministic tier is returned as-is with `attempt_number = 1` no matter
which attempt number was passed in, while a model-tier repair records the
actual attempt number. -/
theorem claim_C10_quick_fix_attempt (oracle : RepairOracle) (M : Nat)
    (s : GeneratedScript) (d : ErrorDiagnosis) (a : Nat) (ha : a ≤ M) :
    (∀ ra, quickFixes s d = some ra →
      repairScript oracle M s d a = .ok ra ∧ ra.attempt_number = 1) ∧
    (quickFixes s d = none → ∀ resp, oracle s d a = .ok resp →
      ∃ ra, repairScript oracle M s d a = .ok ra ∧ ra.attempt_number = a) := by
  have hM : ¬ M < a := by omega
  constructor
  · intro ra hq
    refine ⟨?_, (quickFixes_some_fields s d ra hq).2.1⟩
    unfold repairScript
    rw [if_neg hM, hq]
  · intro hq resp hresp
    unfold repairScript
    rw [if_neg hM, hq]
    unfold llmRepair
    rw [hresp]
    exact ⟨_, rfl, rfl⟩

/-- Witness for C10: a timeout script the deterministic tier fixes, called
with attempt number 3 — the recorded attempt number is still 1. -/
theorem claim_C10_witness :
    ∃ ra, repairScript (fun _ _ _ => .error "unused") 3
        { task_id := "t10", code := "await page.goto(url)", model_used := "m" }
        { task_id := "t10", error_type := .timeout, error_message := "timed out" }
        3 = .ok ra ∧ ra.attempt_number = 1 := by
  cases hq : quickFixes
      { task_id := "t10", code := "await page.goto(url)", model_used := "m" }
      { task_id := "t10", error_type := .timeout, error_message := "timed out" } with
  | none =>
    have : (quickFixes
        { task_id := "t10", code := "await page.goto(url)", model_used := "m" }
        { task_id := "t10", error_type := .timeout, error_message := "timed out" }).isSome
        = true := by decide
    rw [hq] at this
    cases this
  | some ra =>
    obtain ⟨h1, h2⟩ :=
      (claim_C10_quick_fix_attempt (fun _ _ _ => .error "unused") 3 _ _ 3
        (by omega)).1 ra hq
    exact ⟨ra, h1, h2⟩

/-! ### Claim C5: the timeout rule fires deterministically -/

/-- Claim C5.  On a failed outcome whose lowered error text contains
"timeout" and matches no selector-group keyword, the rule tier classifies
`timeout` with confidence 0.85 and suggests the "Increase timeout" fix,
and `diagnose_error` returns that rule-tier result for every diagnosis
oracle — the model tier is never consulted. -/
theorem claim_C5_timeout_rule (result : ExecutionResult)
    (hfail : result.success = false)
    (hto : strContains (strLower (result.error_message.getD "")) "timeout" = true)
    (hsel : anyKeyword (strLower (result.error_message.getD "")) selectorKeywords = false) :
    (ruleBasedDiagnosis result).error_type = .timeout ∧
    (ruleBasedDiagnosis result).confidence = 0.85 ∧
    "Increase timeout: timeout=60000" ∈ (ruleBasedDiagnosis result).suggested_fixes ∧
    ∀ oracle : DiagOracle,
      diagnoseError oracle result = .ok (ruleBasedDiagnosis result) := by
  have hkw : anyKeyword (strLower (result.error_message.getD "")) timeoutKeywords = true := by
    unfold anyKeyword timeoutKeywords
    simp only [List.any_cons, Bool.or_eq_true]
    exact Or.inl hto
  have h1 : (ruleBasedDiagnosis result).error_type = .timeout := by
    simp [ruleBasedDiagnosis, hsel, hkw]
  have h2 : (ruleBasedDiagnosis result).confidence = 0.85 := by
    simp [ruleBasedDiagnosis, hsel, hkw]
  have h3 : (ruleBasedDiagnosis result).suggested_fixes = timeoutFixes := by
    simp [ruleBasedDiagnosis, hsel, hkw]
  refine ⟨h1, h2, ?_, ?_⟩
  · rw [h3]
    simp [timeoutFixes]
  · intro oracle
    unfold diagnoseError
    simp only [hfail, Bool.false_eq_true, if_false]
    rw [if_neg]
    rw [h2]
    norm_num

/-- Witness for C5 at the concrete error text "Timeout 30000ms exceeded". -/
theorem claim_C5_witness :
    (ruleBasedDiagnosis
        { task_id := "t5", script_version := 1, success := false,
          error_message := some "Timeout 30000ms exceeded" }).error_type = .timeout ∧
    (ruleBasedDiagnosis
        { task_id := "t5", script_version := 1, success := false,
          error_message := some "Timeout 30000ms exceeded" }).confidence = 0.85 ∧
    "Increase timeout: timeout=60000" ∈
      (ruleBasedDiagnosis
        { task_id := "t5", script_version := 1, success := false,
          error_message := some "Timeout 30000ms exceeded" }).suggested_fixes ∧
    ∀ oracle : DiagOracle,
      diagnoseError oracle
          { task_id := "t5", script_version := 1, success := false,
            error_message := some "Timeout 30000ms exceeded" } =
        .ok (ruleBasedDiagnosis
          { task_id := "t5", script_version := 1, success := false,
            error_message := some "Timeout 30000ms exceeded" }) :=
  claim_C5_timeout_rule _ rfl (by decide) (by decide)

/-! ### Claim C6: ordered first-match keyword classification -/

/-- Claim C6.  On any failed outcome the rule tier's kind and confidence
are exactly first-match-wins over the ordered group table (selector,
timeout, network, script-runtime, crash), and an absent error text yields
`unknown` with confidence 0.5. -/
theorem claim_C6_rule_order (result : ExecutionResult)
    (_hfail : result.success = false) :
    ((ruleBasedDiagnosis result).error_type, (ruleBasedDiagnosis result).confidence) =
      firstMatch (strLower (result.error_message.getD "")) keywordTable ∧
    (result.error_message = none →
      (ruleBasedDiagnosis result).error_type = .unknown ∧
      (ruleBasedDiagnosis result).confidence = 0.5) := by
  constructor
  · by_cases h1 : anyKeyword (strLower (result.error_message.getD "")) selectorKeywords <;>
      by_cases h2 : anyKeyword (strLower (result.error_message.getD "")) timeoutKeywords <;>
      by_cases h3 : anyKeyword (strLower (result.error_message.getD "")) networkKeywords <;>
      by_cases h4 : anyKeyword (strLower (result.error_message.getD "")) javascriptKeywords <;>
      by_cases h5 : anyKeyword (strLower (result.error_message.getD "")) crashKeywords <;>
      simp [ruleBasedDiagnosis, firstMatch, keywordTable, h1, h2, h3, h4, h5]
  · intro hnone
    constructor <;>
      simp [ruleBasedDiagnosis, hnone,
        show anyKeyword (strLower "") selectorKeywords = false by decide,
        show anyKeyword (strLower "") timeoutKeywords = false by decide,
        show anyKeyword (strLower "") networkKeywords = false by decide,
        show anyKeyword (strLower "") javascriptKeywords = false by decide,
        show anyKeyword (strLower "") crashKeywords = false by decide]

/-- Witness for C6 at a concrete failed outcome with no error text. -/
theorem claim_C6_witness :
    ((ruleBasedDiagnosis
        { task_id := "t6", script_version := 1, success := false }).error_type,
      (ruleBasedDiagnosis
        { task_id := "t6", script_version := 1, success := false }).confidence) =
      firstMatch
        (strLower (({ task_id := "t6", script_version := 1, success := false }
          : ExecutionResult).error_message.getD "")) keywordTable ∧
    (({ task_id := "t6", script_version := 1, success := false }
        : ExecutionResult).error_message = none →
      (ruleBasedDiagnosis
        { task_id := "t6", script_version := 1, success := false }).error_type = .unknown ∧
      (ruleBasedDiagnosis
        { task_id := "t6", script_version := 1, success := false }).confidence = 0.5) :=
  claim_C6_rule_order _ rfl

/-! ### Invariants of the control loop -/

/-- The loop's combined invariant: starting any iteration with the attempt
counter consistent with the remaining budget, a virgin completion ledger,
and a gap-free version chain whose tip is the current script, the loop (1)
seals the run exactly once, with `success` or `failed`, (2) adds at most
`remaining - 1` repairs, and (3) keeps the version chain exactly
`1, 2, ..., n`. -/
theorem runLoop_invariants (c : Collaborators) (headless : Option Bool)
    (autoHeal : Bool) (maxRepair : Nat) :
    ∀ remaining attempt current tr,
      attempt + remaining = maxRepair + 1 →
      1 ≤ remaining →
      tr.completions = [] →
      tr.scripts.map (fun s => s.version) = List.range' 1 tr.scripts.length →
      current.version = tr.scripts.length →
      ((runLoop c headless autoHeal maxRepair remaining attempt current tr).final_status =
          TaskStatus.success ∨
        (runLoop c headless autoHeal maxRepair remaining attempt current tr).final_status =
          TaskStatus.failed) ∧
      (runLoop c headless autoHeal maxRepair remaining attempt current tr).completions =
        [(runLoop c headless autoHeal maxRepair remaining attempt current tr).final_status] ∧
      (runLoop c headless autoHeal maxRepair remaining attempt current tr).repairs.length ≤
        tr.repairs.length + (remaining - 1) ∧
      (runLoop c headless autoHeal maxRepair remaining attempt current tr).scripts.map
          (fun s => s.version) =
        List.range' 1
          (runLoop c headless autoHeal maxRepair remaining attempt current tr).scripts.length := by
  intro remaining
  induction remaining with
  | zero => intro attempt current tr hinv hge; omega
  | succ r ih =>
    intro attempt current tr hinv _hge hc hv hcur
    rw [runLoop]
    dsimp only
    generalize (match c.execute (attempt + 1) current headless with
      | .ok r => r
      | .error e => execFailResult tr.task.id current.version e) = result
    cases hsucc : result.success with
    | true =>
      rw [if_pos rfl]
      refine ⟨Or.inl rfl, ?_, ?_, ?_⟩
      · simp [TestRun.mark_complete, hc]
      · simp [TestRun.mark_complete]
      · simpa [TestRun.mark_complete] using hv
    | false =>
      rw [if_neg (by simp)]
      by_cases hguard : autoHeal = false ∨ maxRepair + 1 ≤ attempt + 1
      · rw [if_pos hguard]
        refine ⟨Or.inr rfl, ?_, ?_, ?_⟩
        · simp [TestRun.mark_complete, hc]
        · simp [TestRun.mark_complete]
        · simpa [TestRun.mark_complete] using hv
      · rw [if_neg hguard]
        cases hdiag : diagnoseError c.diagOracle result with
        | error e =>
          dsimp only
          refine ⟨Or.inr rfl, ?_, ?_, ?_⟩
          · simp [TestRun.mark_complete, hc]
          · simp [TestRun.mark_complete]
          · simpa [TestRun.mark_complete] using hv
        | ok diagnosis =>
          dsimp only
          cases hrep : repairScript c.repairOracle maxRepair current diagnosis (attempt + 1) with
          | error e =>
            dsimp only
            refine ⟨Or.inr rfl, ?_, ?_, ?_⟩
            · simp [TestRun.mark_complete, hc]
            · simp [TestRun.mark_complete]
            · simpa [TestRun.mark_complete] using hv
          | ok repair =>
            dsimp only
            have hver : repair.repaired_script.version = current.version + 1 :=
              repairScript_ok_version c.repairOracle maxRepair current diagnosis
                (attempt + 1) repair hrep
            have hr1 : 1 ≤ r := by omega
            have hmap : (tr.scripts ++ [repair.repaired_script]).map (fun s => s.version) =
                List.range' 1 (tr.scripts ++ [repair.repaired_script]).length := by
              rw [List.map_append, hv, List.length_append]
              simp only [List.map_cons, List.map_nil, List.length_cons, List.length_nil]
              rw [hver, hcur, List.range'_1_concat, Nat.add_comm 1 tr.scripts.length]
            have := ih (attempt + 1) repair.repaired_script
              { tr with
                executions := tr.executions ++ [result]
                diagnoses := tr.diagnoses ++ [diagnosis]
                repairs := tr.repairs ++ [repair]
                total_cost := tr.total_cost + repair.repaired_script.cost
                scripts := tr.scripts ++ [repair.repaired_script] }
              (by omega) hr1 (by simpa using hc) (by simpa using hmap)
              (by simp [hver, hcur])
            refine ⟨this.1, this.2.1, ?_, this.2.2.2⟩
            calc (runLoop c headless autoHeal maxRepair r (attempt + 1)
                    repair.repaired_script _).repairs.length
                ≤ (tr.repairs ++ [repair]).length + (r - 1) := this.2.2.1
              _ ≤ tr.repairs.length + (r + 1 - 1) := by
                  simp only [List.length_append, List.length_cons, List.length_nil]
                  omega

/-- The initial synthesis always yields version 1 (the model default the
generator never overrides). -/
theorem generateScript_version (oracle : Except String GenResponse)
    (task : AutomationTask) (script : GeneratedScript)
    (h : generateScript oracle task = .ok script) : script.version = 1 := by
  unfold generateScript at h
  cases oracle with
  | error e => cases h
  | ok resp =>
    injection h with h
    subst h
    rfl

/-- The run-level invariant: every TestRun `run_automation` returns is
sealed exactly once with `success` or `failed`, carries at most
`maxRepair` repairs, and its script versions are exactly `1, 2, ..., n`. -/
theorem runAutomation_invariants (c : Collaborators) (taskId description : String)
    (url : Option String) (headless : Option Bool) (autoHeal : Bool)
    (maxRepair : Nat) :
    ((runAutomation c taskId description url headless autoHeal maxRepair).final_status =
        TaskStatus.success ∨
      (runAutomation c taskId description url headless autoHeal maxRepair).final_status =
        TaskStatus.failed) ∧
    (runAutomation c taskId description url headless autoHeal maxRepair).completions =
      [(runAutomation c taskId description url headless autoHeal maxRepair).final_status] ∧
    (runAutomation c taskId description url headless autoHeal maxRepair).repairs.length ≤
      maxRepair ∧
    (runAutomation c taskId description url headless autoHeal maxRepair).scripts.map
        (fun s => s.version) =
      List.range' 1
        (runAutomation c taskId description url headless autoHeal maxRepair).scripts.length := by
  unfold runAutomation
  dsimp only
  cases hg : generateScript c.generate
      { id := taskId, description := description, url := url } with
  | error e =>
    dsimp only
    exact ⟨Or.inr rfl, by simp [TestRun.mark_complete], by simp [TestRun.mark_complete],
      by simp [TestRun.mark_complete]⟩
  | ok script =>
    dsimp only
    have h1 := generateScript_version c.generate _ script hg
    generalize htr0 :
      ({ task := { id := taskId, description := description, url := url },
           scripts := [] ++ [script] } : TestRun).add_cost script.cost = tr0
    have hloop := runLoop_invariants c headless autoHeal maxRepair (maxRepair + 1) 0 script tr0
      (by omega) (by omega) (by rw [← htr0]; rfl)
      (by rw [← htr0]; simp [TestRun.add_cost, h1, List.range'])
      (by rw [← htr0]; simp [TestRun.add_cost, h1])
    refine ⟨hloop.1, hloop.2.1, ?_, hloop.2.2.2⟩
    have h2 := hloop.2.2.1
    have h3 : tr0.repairs.length = 0 := by rw [← htr0]; rfl
    omega

/-! ### Claim C2: the loop always returns a sealed TestRun -/

/-- Claim C2.  For every input and every behaviour of the four
collaborators (each free to fail on any call), `run_automation` returns a
TestRun whose `final_status` is `success` or `failed` and which was sealed
by `mark_complete` exactly once — the completion ledger holds exactly one
entry, the final status itself, so the status never reverts. -/
theorem claim_C2_always_sealed (c : Collaborators) (taskId description : String)
    (url : Option String) (headless : Option Bool) (autoHeal : Bool)
    (maxRepair : Nat) :
    ((runAutomation c taskId description url headless autoHeal maxRepair).final_status =
        TaskStatus.success ∨
      (runAutomation c taskId description url headless autoHeal maxRepair).final_status =
        TaskStatus.failed) ∧
    (runAutomation c taskId description url headless autoHeal maxRepair).completions =
      [(runAutomation c taskId description url headless autoHeal maxRepair).final_status] :=
  ⟨(runAutomation_invariants c taskId description url headless autoHeal maxRepair).1,
   (runAutomation_invariants c taskId description url headless autoHeal maxRepair).2.1⟩

/-! ### Claim C3: the repair budget is respected -/

/-- Claim C3.  Every TestRun the loop produces holds at most `maxRepair`
repairs, and `repair_script` called with any attempt number past
`maxRepair` fails with the attempt-budget `ValueError` instead of
producing a RepairAttempt. -/
theorem claim_C3_repair_budget (c : Collaborators) (taskId description : String)
    (url : Option String) (headless : Option Bool) (autoHeal : Bool)
    (maxRepair : Nat) (oracle : RepairOracle) (s : GeneratedScript)
    (d : ErrorDiagnosis) :
    (runAutomation c taskId description url headless autoHeal maxRepair).repairs.length ≤
      maxRepair ∧
    (∀ a, maxRepair < a →
      repairScript oracle maxRepair s d a =
        .error ("Exceeded maximum repair attempts (" ++ toString maxRepair ++ ")")) := by
  refine ⟨(runAutomation_invariants c taskId description url headless autoHeal maxRepair).2.2.1,
    ?_⟩
  intro a ha
  unfold repairScript
  rw [if_pos ha]

/-- Witness for C3: the concrete always-failing run of C1's witness stays
within the budget of 3, and a 4th repair attempt raises the budget error. -/
theorem claim_C3_witness :
    (runAutomation netFailCollabs "t1" "always fails" none none true 3).repairs.length ≤ 3 ∧
    repairScript (fun _ _ _ => .error "unused") 3
        { task_id := "t1", code := "x", model_used := "m" }
        { task_id := "t1", error_type := .unknown, error_message := "x" } 4 =
      .error ("Exceeded maximum repair attempts (" ++ toString 3 ++ ")") := by
  have h := claim_C3_repair_budget netFailCollabs "t1" "always fails" none none true 3
    (fun _ _ _ => .error "unused")
    { task_id := "t1", code := "x", model_used := "m" }
    { task_id := "t1", error_type := .unknown, error_message := "x" }
  exact ⟨h.1, h.2 4 (by omega)⟩

/-! ### Claim C8: script versions form the exact chain 1, 2, 3, ... -/

/-- Claim C8.  In every TestRun the loop produces, the versions of the
scripts list are, in order, exactly `1, 2, ..., n`: the generated script
has version 1 and every successful repair appends the current version plus
one. -/
theorem claim_C8_version_chain (c : Collaborators) (taskId description : String)
    (url : Option String) (headless : Option Bool) (autoHeal : Bool)
    (maxRepair : Nat) :
    (runAutomation c taskId description url headless autoHeal maxRepair).scripts.map
        (fun s => s.version) =
      List.range' 1
        (runAutomation c taskId description url headless autoHeal maxRepair).scripts.length :=
  (runAutomation_invariants c taskId description url headless autoHeal maxRepair).2.2.2

/-! ### Claim C1: the always-network-failing end-to-end run -/

/-- A failed outcome matching the network group (and neither earlier
group) is classified network-error by the rule tier with confidence 0.9,
so `diagnose_error` never consults the model tier. -/
theorem diagnoseError_network (oracle : DiagOracle) (r : ExecutionResult)
    (hfail : r.success = false)
    (hsel : anyKeyword (strLower (r.error_message.getD "")) selectorKeywords = false)
    (hto : anyKeyword (strLower (r.error_message.getD "")) timeoutKeywords = false)
    (hnet : anyKeyword (strLower (r.error_message.getD "")) networkKeywords = true) :
    diagnoseError oracle r = .ok (ruleBasedDiagnosis r) ∧
    (ruleBasedDiagnosis r).error_type = .network_error := by
  have h1 : (ruleBasedDiagnosis r).error_type = .network_error := by
    simp [ruleBasedDiagnosis, hsel, hto, hnet]
  have h2 : (ruleBasedDiagnosis r).confidence = 0.9 := by
    simp [ruleBasedDiagnosis, hsel, hto, hnet]
  refine ⟨?_, h1⟩
  unfold diagnoseError
  simp only [hfail, Bool.false_eq_true, if_false]
  rw [if_neg]
  rw [h2]
  norm_num

/-- Exact attempt accounting of the loop when every execution fails with a
network error, auto-heal is on and the repair oracle never raises: each
remaining iteration adds one execution, and all but the last add one
diagnosis and one repair, until the run seals `failed`. -/
theorem runLoop_netfail_counts (c : Collaborators) (headless : Option Bool)
    (maxRepair : Nat) (hx : alwaysNetworkFail c headless) (hr : repairNeverRaises c) :
    ∀ remaining attempt current tr,
      attempt + remaining = maxRepair + 1 →
      1 ≤ remaining →
      (runLoop c headless true maxRepair remaining attempt current tr).executions.length =
        tr.executions.length + remaining ∧
      (runLoop c headless true maxRepair remaining attempt current tr).diagnoses.length =
        tr.diagnoses.length + (remaining - 1) ∧
      (runLoop c headless true maxRepair remaining attempt current tr).repairs.length =
        tr.repairs.length + (remaining - 1) ∧
      (runLoop c headless true maxRepair remaining attempt current tr).final_status =
        TaskStatus.failed := by
  intro remaining
  induction remaining with
  | zero => intro attempt current tr hinv hge; omega
  | succ r ih =>
    intro attempt current tr hinv _hge
    obtain ⟨res, hexec, hfl, hsel, hto, hnet⟩ := hx (attempt + 1) current
    rw [runLoop]
    dsimp only
    rw [hexec]
    dsimp only
    rw [if_neg (by simp [hfl])]
    by_cases hlast : maxRepair + 1 ≤ attempt + 1
    · rw [if_pos (Or.inr hlast)]
      have hr0 : r = 0 := by omega
      subst hr0
      refine ⟨?_, ?_, ?_, rfl⟩ <;> simp [TestRun.mark_complete]
    · rw [if_neg (by simp [hlast])]
      obtain ⟨hdOk, hdnet⟩ := diagnoseError_network c.diagOracle res hfl hsel hto hnet
      rw [hdOk]
      dsimp only
      have hql : quickFixes current (ruleBasedDiagnosis res) = none :=
        quickFixes_none_of_other _ _ (by simp [hdnet]) (by simp [hdnet])
      obtain ⟨resp, hresp⟩ := hr current (ruleBasedDiagnosis res) (attempt + 1)
      have hrepOk : ∃ ra, repairScript c.repairOracle maxRepair current
          (ruleBasedDiagnosis res) (attempt + 1) = .ok ra := by
        unfold repairScript
        rw [if_neg (by omega), hql]
        unfold llmRepair
        rw [hresp]
        exact ⟨_, rfl⟩
      obtain ⟨ra, hra⟩ := hrepOk
      rw [hra]
      dsimp only
      simp only [TestRun.add_cost]
      have hi := ih (attempt + 1) ra.repaired_script
        { tr with
          executions := tr.executions ++ [res]
          diagnoses := tr.diagnoses ++ [ruleBasedDiagnosis res]
          repairs := tr.repairs ++ [ra]
          total_cost := tr.total_cost + ra.repaired_script.cost
          scripts := tr.scripts ++ [ra.repaired_script] }
        (by omega) (by omega)
      obtain ⟨h1, h2, h3, h4⟩ := hi
      simp only [List.length_append, List.length_cons, List.length_nil] at h1 h2 h3
      refine ⟨?_, ?_, ?_, h4⟩ <;>
        · first
          | (rw [h1]; omega)
          | (rw [h2]; omega)
          | (rw [h3]; omega)

/-- Claim C1.  Whenever generation succeeds, every execution of every
script version reports failure with a network error, and the repair model
never raises, `run_automation` with auto-heal on and
`MAX_REPAIR_ATTEMPTS = 3` returns a TestRun with exactly 4 executions, 3
diagnoses, 3 repairs, and `final_status = failed`. -/
theorem claim_C1_network_run (c : Collaborators) (taskId description : String)
    (url : Option String) (headless : Option Bool) (resp : GenResponse)
    (hg : c.generate = .ok resp)
    (hx : alwaysNetworkFail c headless) (hr : repairNeverRaises c) :
    (runAutomation c taskId description url headless true 3).executions.length = 4 ∧
    (runAutomation c taskId description url headless true 3).diagnoses.length = 3 ∧
    (runAutomation c taskId description url headless true 3).repairs.length = 3 ∧
    (runAutomation c taskId description url headless true 3).final_status =
      TaskStatus.failed := by
  have hgen : generateScript c.generate
      { id := taskId, description := description, url := url } = .ok
      { task_id := taskId, code := resp.code, model_used := defaultModel,
        prompt_tokens := resp.prompt_tokens, completion_tokens := resp.completion_tokens,
        cost := resp.cost } := by
    unfold generateScript
    rw [hg]
  unfold runAutomation
  dsimp only
  rw [hgen]
  dsimp only
  generalize hscr :
    ({ task_id := taskId, code := resp.code, model_used := defaultModel,
         prompt_tokens := resp.prompt_tokens, completion_tokens := resp.completion_tokens,
         cost := resp.cost } : GeneratedScript) = script0
  generalize htr0 :
    ({ task := { id := taskId, description := description, url := url },
         scripts := [] ++ [script0] } : TestRun).add_cost resp.cost = tr0
  obtain ⟨h1, h2, h3, h4⟩ :=
    runLoop_netfail_counts c headless 3 hx hr (3 + 1) 0 script0 tr0 (by omega) (by omega)
  have he : tr0.executions.length = 0 := by rw [← htr0]; rfl
  have hd : tr0.diagnoses.length = 0 := by rw [← htr0]; rfl
  have hp : tr0.repairs.length = 0 := by rw [← htr0]; rfl
  refine ⟨?_, ?_, ?_, h4⟩ <;> omega

/-- Witness for C1: the concrete always-network-failing collaborators. -/
theorem claim_C1_witness :
    (runAutomation netFailCollabs "t1" "always fails" none none true 3).executions.length = 4 ∧
    (runAutomation netFailCollabs "t1" "always fails" none none true 3).diagnoses.length = 3 ∧
    (runAutomation netFailCollabs "t1" "always fails" none none true 3).repairs.length = 3 ∧
    (runAutomation netFailCollabs "t1" "always fails" none none true 3).final_status =
      TaskStatus.failed :=
  claim_C1_network_run netFailCollabs "t1" "always fails" none none
    { code := "await page.goto(url)" } rfl
    (fun n s =>
      ⟨{ task_id := "t1", script_version := s.version, success := false,
         error_message := some "net::ERR_CONNECTION_REFUSED" },
       rfl, rfl,
       (by decide : anyKeyword (strLower ((some "net::ERR_CONNECTION_REFUSED").getD ""))
          selectorKeywords = false),
       (by decide : anyKeyword (strLower ((some "net::ERR_CONNECTION_REFUSED").getD ""))
          timeoutKeywords = false),
       (by decide : anyKeyword (strLower ((some "net::ERR_CONNECTION_REFUSED").getD ""))
          networkKeywords = true)⟩)
    (fun s d n => ⟨{ code := s.code }, rfl⟩)

/-! ### Replacement theory for the deterministic repair tier (claim C4) -/

/-- Replacing a pattern by itself is the identity (the source's first
`replace` call in the timeout fix). -/
theorem replaceList_self (pat : List Char) (s : List Char) :
    replaceList pat pat s = s := by
  generalize hn : s.length = n
  induction n using Nat.strong_induction_on generalizing s with
  | _ n ih =>
    subst hn
    cases s with
    | nil => rfl
    | cons c rest =>
      by_cases hm : pat ≠ [] ∧ pat.isPrefixOf (c :: rest) = true
      · obtain ⟨hp, hpre⟩ := hm
        rw [replaceList_cons_match pat pat c rest hp hpre]
        obtain ⟨t, ht⟩ := List.isPrefixOf_iff_prefix.mp hpre
        have hlt : t.length < (c :: rest).length := by
          have hlen := congrArg List.length ht
          simp only [List.length_append, List.length_cons] at hlen
          have hp1 : 0 < pat.length := List.length_pos.mpr hp
          simp only [List.length_cons]
          omega
        rw [← ht, List.drop_left, ih t.length hlt t rfl]
      · rw [replaceList_cons_nomatch pat pat c rest hm,
          ih rest.length (by simp) rest rfl]

/-- `isPrefixOf` only looks at the first `p.length` characters. -/
theorem isPrefixOf_congr_take (p l m : List Char)
    (h : l.take p.length = m.take p.length) :
    p.isPrefixOf l = p.isPrefixOf m := by
  rw [Bool.eq_iff_iff, List.isPrefixOf_iff_prefix, List.isPrefixOf_iff_prefix,
    List.prefix_iff_eq_take, List.prefix_iff_eq_take, h]

/-- The scanner of `replaceList` finds a leftmost occurrence: the string
splits as `a ++ pat ++ b`, and for EVERY replacement text and every tail
standing in for `b`, the replacement rewrites that occurrence first. -/
theorem replaceList_leftmost (pat : List Char) (hp : pat ≠ []) :
    ∀ s, occursIn pat s = true →
      ∃ a b, s = a ++ pat ++ b ∧
        ∀ rep X, replaceList pat rep (a ++ (pat ++ X)) =
          a ++ rep ++ replaceList pat rep X := by
  intro s
  induction s with
  | nil =>
    intro h
    rw [occursIn, List.isEmpty_iff] at h
    exact absurd h hp
  | cons c rest ih =>
    intro h
    by_cases hm : pat.isPrefixOf (c :: rest) = true
    · obtain ⟨t, ht⟩ := List.isPrefixOf_iff_prefix.mp hm
      refine ⟨[], t, by simp [← ht], ?_⟩
      intro rep X
      cases hpat : pat with
      | nil => exact absurd hpat hp
      | cons q qt =>
        subst hpat
        rw [List.nil_append, List.cons_append,
          replaceList_cons_match (q :: qt) rep q (qt ++ X) hp
            (List.isPrefixOf_iff_prefix.mpr ⟨X, by simp⟩),
          List.length_cons, List.drop_succ_cons, List.drop_left]
        simp
    · have hrest : occursIn pat rest = true := by
        rw [occursIn, Bool.or_eq_true] at h
        rcases h with h | h
        · exact absurd h hm
        · exact h
      obtain ⟨a', b', hsplit, hrepl⟩ := ih hrest
      refine ⟨c :: a', b', by simp [hsplit], ?_⟩
      intro rep X
      have hpre : pat.isPrefixOf (c :: (a' ++ (pat ++ X))) = false := by
        have htake : (c :: (a' ++ (pat ++ X))).take pat.length =
            (c :: (a' ++ (pat ++ b'))).take pat.length := by
          have h1 : (c :: (a' ++ (pat ++ X))) = (c :: (a' ++ pat)) ++ X := by
            simp
          have h2 : (c :: (a' ++ (pat ++ b'))) = (c :: (a' ++ pat)) ++ b' := by
            simp
          have hle : pat.length ≤ (c :: (a' ++ pat)).length := by
            simp only [List.length_cons, List.length_append]
            omega
          rw [h1, h2, List.take_append_of_le_length hle,
            List.take_append_of_le_length hle]
        rw [isPrefixOf_congr_take pat _ _ htake]
        have hsplit' : rest = a' ++ (pat ++ b') := by
          rw [hsplit, List.append_assoc]
        rw [← hsplit']
        exact Bool.eq_false_iff.mpr hm
      rw [show (c :: a') ++ (pat ++ X) = c :: (a' ++ (pat ++ X)) from rfl,
        replaceList_cons_nomatch _ _ _ _ (by rw [hpre]; simp),
        hrepl rep X]
      rfl

/-- Replacement copies through a block containing no character equal to
the pattern's head. -/
theorem replaceList_copy_append (pat rep : List Char) (q : Char) (qt : List Char)
    (hpat : pat = q :: qt) (w R : List Char) (hw : ∀ c ∈ w, c ≠ q) :
    replaceList pat rep (w ++ R) = w ++ replaceList pat rep R := by
  induction w with
  | nil => simp
  | cons c w' ih =>
    have hcq : c ≠ q := hw c (by simp)
    rw [show (c :: w') ++ R = c :: (w' ++ R) from rfl]
    rw [replaceList_cons_nomatch]
    · rw [ih (fun x hx => hw x (by simp [hx])), List.cons_append]
    · rintro ⟨h1, h2⟩
      rw [hpat, List.isPrefixOf_cons₂] at h2
      simp only [Bool.and_eq_true, beq_iff_eq] at h2
      exact hcq h2.1.symm

/-- An occurrence in an append is in the left part, in the right part, or
straddles the boundary with a split of the pattern. -/
theorem occursIn_append_cases (p : List Char) :
    ∀ x y, occursIn p (x ++ y) = true →
      occursIn p x = true ∨ occursIn p y = true ∨
        ∃ i, 0 < i ∧ i < p.length ∧ (p.take i) <:+ x ∧ (p.drop i) <+: y := by
  intro x
  induction x with
  | nil => intro y h; exact Or.inr (Or.inl h)
  | cons c x' ih =>
    intro y h
    rw [show (c :: x') ++ y = c :: (x' ++ y) from rfl, occursIn, Bool.or_eq_true] at h
    rcases h with h | h
    · obtain ⟨t, ht⟩ := List.isPrefixOf_iff_prefix.mp h
      by_cases hle : p.length ≤ (c :: x').length
      · left
        have heq : p = (c :: x').take p.length := by
          have h1 := congrArg (List.take p.length) ht
          rw [List.take_left] at h1
          have h2 : (c :: (x' ++ y)) = (c :: x') ++ y := by simp
          rw [h2, List.take_append_of_le_length hle] at h1
          exact h1
        exact occursIn_of_prefix p _ (heq ▸ List.take_prefix p.length (c :: x'))
      · push_neg at hle
        have hEq : (c :: x') ++ y = p ++ t := by simpa using ht.symm
        have htk : (c :: x') = p.take (c :: x').length := by
          have h1 := congrArg (List.take (c :: x').length) hEq
          rw [List.take_left, List.take_append_of_le_length (le_of_lt hle)] at h1
          exact h1
        have hdr : y = p.drop (c :: x').length ++ t := by
          have h1 := congrArg (List.drop (c :: x').length) hEq
          rw [List.drop_left, List.drop_append_of_le_length (le_of_lt hle)] at h1
          exact h1
        refine Or.inr (Or.inr ⟨(c :: x').length, by simp, hle, ?_, ⟨t, hdr.symm⟩⟩)
        rw [← htk]
    · rcases ih y h with h | h | ⟨i, hi0, hilen, hsuf, hpre⟩
      · left
        rw [occursIn, Bool.or_eq_true]
        exact Or.inr h
      · exact Or.inr (Or.inl h)
      · exact Or.inr (Or.inr ⟨i, hi0, hilen, hsuf.trans (List.suffix_cons c x'), hpre⟩)

/-- Replacement cannot create an occurrence of `sub` out of nothing when
`sub` does not occur in the replacement text, is no longer than it, no
nonempty suffix of `sub` starts the replacement text, and no proper
nonempty prefix of `sub` ends it.  Proved jointly with: a nonempty suffix
of `sub` that is not a prefix of the input is not a prefix of the
output. -/
theorem replaceList_no_create (sub pat rep : List Char)
    (hne : sub ≠ [])
    (hlen : sub.length ≤ rep.length)
    (hrep : occursIn sub rep = false)
    (hsufpre : ∀ v ∈ sub.tails, v ≠ [] → ¬ v <+: rep)
    (hstraddle : ∀ i ∈ List.range sub.length, 0 < i → ¬ (sub.take i) <:+ rep) :
    ∀ s, (∀ v ∈ sub.tails, v ≠ [] → ¬ v <+: s → ¬ v <+: replaceList pat rep s) ∧
      (occursIn sub s = false → occursIn sub (replaceList pat rep s) = false) := by
  intro s
  generalize hn : s.length = n
  induction n using Nat.strong_induction_on generalizing s with
  | _ n ih =>
    subst hn
    cases s with
    | nil => exact ⟨fun v _ _ h => fun hcon => h hcon, fun h => h⟩
    | cons c rest =>
      by_cases hm : pat ≠ [] ∧ pat.isPrefixOf (c :: rest) = true
      · obtain ⟨hp, hpre⟩ := hm
        rw [replaceList_cons_match pat rep c rest hp hpre]
        have hlt : ((c :: rest).drop pat.length).length < (c :: rest).length := by
          have hp1 : 0 < pat.length := List.length_pos.mpr hp
          simp only [List.length_drop, List.length_cons]
          omega
        have ihd := ih ((c :: rest).drop pat.length).length hlt _ rfl
        constructor
        · intro v hv hvne _hvs hcon
          have hvlen : v.length ≤ rep.length :=
            le_trans (List.IsSuffix.length_le ((List.mem_tails _ _).mp hv)) hlen
          have hv_eq : v = rep.take v.length := by
            have h1 := List.prefix_iff_eq_take.mp hcon
            rw [List.take_append_of_le_length hvlen] at h1
            exact h1
          exact hsufpre v hv hvne (hv_eq ▸ List.take_prefix v.length rep)
        · intro hso
          by_contra hcon
          rw [Bool.not_eq_false] at hcon
          have hdropso : occursIn sub ((c :: rest).drop pat.length) = false := by
            by_contra hdc
            rw [Bool.not_eq_false] at hdc
            have : occursIn sub (c :: rest) = true := by
              rw [← List.take_append_drop pat.length (c :: rest)]
              exact occursIn_append_right _ _ _ hdc
            rw [hso] at this
            cases this
          rcases occursIn_append_cases sub rep _ hcon with h | h | ⟨i, hi0, hilen, hsuf, _⟩
          · rw [hrep] at h; cases h
          · rw [ihd.2 hdropso] at h; cases h
          · exact hstraddle i (List.mem_range.mpr hilen) hi0 hsuf
      · rw [replaceList_cons_nomatch pat rep c rest hm]
        have ihr := ih rest.length (by simp) rest rfl
        have hpfxpart : ∀ v ∈ sub.tails, v ≠ [] → ¬ v <+: (c :: rest) →
            ¬ v <+: (c :: replaceList pat rep rest) := by
          intro v hv hvne hvs hcon
          cases v with
          | nil => exact hvne rfl
          | cons vc vt =>
            obtain ⟨t, ht⟩ := hcon
            have ht' : vc :: (vt ++ t) = c :: replaceList pat rep rest := by
              simpa using ht
            injection ht' with h1 h2
            subst h1
            have hvt_not : ¬ vt <+: rest := by
              intro hvt
              obtain ⟨u, hu⟩ := hvt
              exact hvs ⟨u, by simp [hu]⟩
            by_cases hvtnil : vt = []
            · subst hvtnil
              exact hvs ⟨rest, rfl⟩
            · have hvt_tail : vt ∈ sub.tails := by
                rw [List.mem_tails _ _]
                exact (List.suffix_cons vc vt).trans ((List.mem_tails _ _).mp hv)
              exact ihr.1 vt hvt_tail hvtnil hvt_not ⟨t, h2⟩
        refine ⟨hpfxpart, ?_⟩
        intro hso
        rw [occursIn, Bool.or_eq_false_iff] at hso
        rw [occursIn, Bool.or_eq_false_iff]
        refine ⟨?_, ihr.2 hso.2⟩
        rw [Bool.eq_false_iff]
        intro hcontra
        have hnot : ¬ sub <+: (c :: rest) := by
          intro hpre2
          have := List.isPrefixOf_iff_prefix.mpr hpre2
          rw [hso.1] at this
          cases this
        exact hpfxpart sub ((List.mem_tails _ _).mpr (List.suffix_refl sub)) hne hnot
          (List.isPrefixOf_iff_prefix.mp hcontra)

/-- String-level effect of the two timeout quick-fix replacements on any
script text that contains `await page.goto(` and no `wait_until=`: the
result contains the explicit timeout value, the idle-wait option, both
marker substrings the quick fix tests for, and the intermediate text
still contains no `wait_until=`. -/
theorem timeoutPatch_spec (code : String)
    (hgoto : strContains code "await page.goto(" = true)
    (hwu : strContains code "wait_until=" = false) :
    strContains (strReplace
        (strReplace code "await page.goto(" "await page.goto(timeout=60000, ")
        "await page.goto(" "await page.goto(wait_until='networkidle', ")
      "timeout=60000" = true ∧
    strContains (strReplace
        (strReplace code "await page.goto(" "await page.goto(timeout=60000, ")
        "await page.goto(" "await page.goto(wait_until='networkidle', ")
      "wait_until='networkidle'" = true ∧
    strContains (strReplace
        (strReplace code "await page.goto(" "await page.goto(timeout=60000, ")
        "await page.goto(" "await page.goto(wait_until='networkidle', ")
      "timeout=" = true ∧
    strContains (strReplace
        (strReplace code "await page.goto(" "await page.goto(timeout=60000, ")
        "await page.goto(" "await page.goto(wait_until='networkidle', ")
      "wait_until=" = true ∧
    strContains (strReplace code "await page.goto(" "await page.goto(timeout=60000, ")
      "wait_until=" = false := by
  have hPne : "await page.goto(".data ≠ [] := by decide
  obtain ⟨a, b, hsplit, hrepl⟩ :=
    replaceList_leftmost "await page.goto(".data hPne code.data hgoto
  have hsplit' : code.data = a ++ ("await page.goto(".data ++ b) := by
    rw [hsplit, List.append_assoc]
  have hnc := replaceList_no_create "wait_until=".data "await page.goto(".data
    "await page.goto(timeout=60000, ".data (by decide) (by decide) (by decide)
    (by decide) (by decide) code.data
  have hmid : occursIn "wait_until=".data
      (replaceList "await page.goto(".data "await page.goto(timeout=60000, ".data
        code.data) = false := hnc.2 hwu
  have htstruct : replaceList "await page.goto(".data
      "await page.goto(timeout=60000, ".data code.data =
      a ++ ("await page.goto(".data ++ ("timeout=60000, ".data ++
        replaceList "await page.goto(".data "await page.goto(timeout=60000, ".data b)) := by
    conv_lhs => rw [hsplit']
    rw [hrepl,
      show "await page.goto(timeout=60000, ".data =
        "await page.goto(".data ++ "timeout=60000, ".data by decide]
    simp [List.append_assoc]
  have hfinal : (strReplace
      (strReplace code "await page.goto(" "await page.goto(timeout=60000, ")
      "await page.goto(" "await page.goto(wait_until='networkidle', ").data =
      a ++ ("await page.goto(wait_until='networkidle', ".data ++
        ("timeout=60000, ".data ++
          replaceList "await page.goto(".data
            "await page.goto(wait_until='networkidle', ".data
            (replaceList "await page.goto(".data
              "await page.goto(timeout=60000, ".data b))) := by
    show replaceList "await page.goto(".data
        "await page.goto(wait_until='networkidle', ".data
        (replaceList "await page.goto(".data
          "await page.goto(timeout=60000, ".data code.data) = _
    rw [htstruct, hrepl,
      replaceList_copy_append _ _ 'a' "wait page.goto(".data (by decide) _ _
        (by decide)]
    simp [List.append_assoc]
  refine ⟨?_, ?_, ?_, ?_, hmid⟩
  · show occursIn "timeout=60000".data _ = true
    rw [hfinal]
    apply occursIn_append_right
    apply occursIn_append_right
    apply occursIn_append_left
    decide
  · show occursIn "wait_until='networkidle'".data _ = true
    rw [hfinal]
    apply occursIn_append_right
    apply occursIn_append_left
    decide
  · show occursIn "timeout=".data _ = true
    rw [hfinal]
    apply occursIn_append_right
    apply occursIn_append_right
    apply occursIn_append_left
    decide
  · show occursIn "wait_until=".data _ = true
    rw [hfinal]
    apply occursIn_append_right
    apply occursIn_append_left
    decide

/-! ### Claim C4 (corrected): the deterministic timeout repair -/

/-- Counterexample to C4 as stated.  The script `open_page()` lacks any
timeout configuration and the diagnosis is a timeout, yet the
deterministic tier "succeeds" (returns a RepairAttempt — both replace
chains fire vacuously because `await page.goto(` never occurs) while the
new version's source contains neither an explicit timeout value nor a
networkidle option: its text is unchanged. -/
theorem claim_C4_counterexample :
    strContains
      ({ task_id := "t4", code := "open_page()", model_used := "m" }
        : GeneratedScript).code "timeout=" = false ∧
    (quickFixes { task_id := "t4", code := "open_page()", model_used := "m" }
      { task_id := "t4", error_type := .timeout, error_message := "timed out" }).isSome
      = true ∧
    (quickFixes { task_id := "t4", code := "open_page()", model_used := "m" }
      { task_id := "t4", error_type := .timeout, error_message := "timed out" }).map
      (fun ra => (ra.repaired_script.code,
        strContains ra.repaired_script.code "timeout=",
        strContains ra.repaired_script.code "networkidle")) =
      some ("open_page()", false, false) := by
  refine ⟨by decide, by decide, by decide⟩

/-- Claim C4, amended.  For every script that contains an `await
page.goto(` call and lacks both a timeout and a wait_until configuration,
and every timeout diagnosis, the deterministic tier yields a new version
whose source contains the explicit timeout value `timeout=60000` and the
idle-wait option `wait_until='networkidle'`; a second deterministic
repair on the patched script makes no change and declines (returns
`none`), and `repair_script` on it falls through to the model tier. -/
theorem claim_C4_amended (script : GeneratedScript) (diagnosis : ErrorDiagnosis)
    (oracle : RepairOracle) (maxRepairAttempts attempt : Nat)
    (hd : diagnosis.error_type = .timeout)
    (hgoto : strContains script.code "await page.goto(" = true)
    (hto : strContains script.code "timeout=" = false)
    (hwu : strContains script.code "wait_until=" = false)
    (hatt : attempt ≤ maxRepairAttempts) :
    ∃ ra, quickFixes script diagnosis = some ra ∧
      strContains ra.repaired_script.code "timeout=60000" = true ∧
      strContains ra.repaired_script.code "wait_until='networkidle'" = true ∧
      quickFixes ra.repaired_script diagnosis = none ∧
      repairScript oracle maxRepairAttempts ra.repaired_script diagnosis attempt =
        llmRepair oracle ra.repaired_script diagnosis attempt := by
  obtain ⟨hc1, hc2, hc3, hc4, hmid⟩ := timeoutPatch_spec script.code hgoto hwu
  have hid : strReplace script.code "await page.goto(" "await page.goto(" =
      script.code := by
    unfold strReplace
    rw [replaceList_self]
  have hqc : quickFixCompute script diagnosis =
      (strReplace
        (strReplace script.code "await page.goto(" "await page.goto(timeout=60000, ")
        "await page.goto(" "await page.goto(wait_until='networkidle', ",
       true, ["Increased navigation timeout to 60s", "Added network idle wait"]) := by
    unfold quickFixCompute
    rw [hd, if_pos rfl]
    simp [hto, hid, hmid]
  have hsome : quickFixes script diagnosis = some
      { task_id := script.task_id
        original_version := script.version
        repaired_script :=
          { task_id := script.task_id
            code := strReplace
              (strReplace script.code "await page.goto(" "await page.goto(timeout=60000, ")
              "await page.goto(" "await page.goto(wait_until='networkidle', "
            model_used := "quick_fix"
            version := script.version + 1
            cost := 0 }
        repair_strategy := String.intercalate "; "
          ["Increased navigation timeout to 60s", "Added network idle wait"]
        diagnosis_used := diagnosis
        attempt_number := 1 } := by
    unfold quickFixes
    rw [hqc]
    rfl
  have hqc2 : quickFixCompute
      { task_id := script.task_id
        code := strReplace
          (strReplace script.code "await page.goto(" "await page.goto(timeout=60000, ")
          "await page.goto(" "await page.goto(wait_until='networkidle', "
        model_used := "quick_fix"
        version := script.version + 1
        cost := 0 } diagnosis =
      (strReplace
        (strReplace script.code "await page.goto(" "await page.goto(timeout=60000, ")
        "await page.goto(" "await page.goto(wait_until='networkidle', ",
       false, []) := by
    unfold quickFixCompute
    rw [hd, if_pos rfl]
    simp [hc3, hc4]
  have hnone : quickFixes
      { task_id := script.task_id
        code := strReplace
          (strReplace script.code "await page.goto(" "await page.goto(timeout=60000, ")
          "await page.goto(" "await page.goto(wait_until='networkidle', "
        model_used := "quick_fix"
        version := script.version + 1
        cost := 0 } diagnosis = none := by
    unfold quickFixes
    rw [hqc2]
    rfl
  refine ⟨_, hsome, hc1, hc2, hnone, ?_⟩
  unfold repairScript
  rw [if_neg (by omega), hnone]

/-- Witness for the amended C4 at the concrete script
`await page.goto(url)` with a timeout diagnosis, attempt 2 of 3. -/
theorem claim_C4_witness :
    ∃ ra, quickFixes
        { task_id := "t4", code := "await page.goto(url)", model_used := "m" }
        { task_id := "t4", error_type := .timeout, error_message := "timed out" } =
        some ra ∧
      strContains ra.repaired_script.code "timeout=60000" = true ∧
      strContains ra.repaired_script.code "wait_until='networkidle'" = true ∧
      quickFixes ra.repaired_script
        { task_id := "t4", error_type := .timeout, error_message := "timed out" } =
        none ∧
      repairScript (fun _ _ _ => .error "unused") 3 ra.repaired_script
          { task_id := "t4", error_type := .timeout, error_message := "timed out" } 2 =
        llmRepair (fun _ _ _ => .error "unused") ra.repaired_script
          { task_id := "t4", error_type := .timeout, error_message := "timed out" } 2 :=
  claim_C4_amended
    { task_id := "t4", code := "await page.goto(url)", model_used := "m" }
    { task_id := "t4", error_type := .timeout, error_message := "timed out" }
    (fun _ _ _ => .error "unused") 3 2 rfl (by decide) (by decide) (by decide)
    (by omega)

end SelfHeal
